import Mathlib

/-!
Verification development for the `TexImage` copy-on-write texture container of
nvidia-texture-tools (`src/nvtt/TexImage.cpp`).

The container owns an ordered sequence of per-face float images together with
texture-wide metadata, and exposes ingestion, resampling, transform and metric
operations.  This file gives a shallow embedding of those operations and proves
or refutes the stated properties about them.

Modelling conventions:
* C++ `float`/`double` pixel values are embedded as `ℚ`.  The properties under
  study are structural (control flow, indexing, sentinel values, face counts);
  no rounding behaviour is relied upon.
* The external `FloatImage` collaborator (out of scope in the design document)
  is modelled from the spec as a dense per-channel (channel-major) 4-channel
  buffer: element `(c * height + y) * width + x` is pixel `(x, y)` of channel
  `c`, and `pixel(idx)` is a flat index into that buffer.
* Undefined behaviour (null-pointer dereference, out-of-bounds buffer access)
  is made explicit: fallible operations return `Option`, with `none` marking a
  fault.
* Reference counting / payload sharing is modelled twice: payload-level
  operations (adequate for an unshared handle, where `detach` is the identity)
  and a small heap model with explicit payloads, images and reference counts
  used to analyse `detach` and the sharing behaviour of `setImage2D`.
-/

namespace Nvtt

/-- Texture type (`TextureType_2D` / `TextureType_Cube`). -/
inductive TextureType
  | type2D
  | typeCube
deriving DecidableEq

/-- Wrap mode (`WrapMode_Clamp` / `WrapMode_Repeat` / `WrapMode_Mirror`). -/
inductive WrapMode
  | clamp
  | repeatMode
  | mirror
deriving DecidableEq

/-- Alpha mode (`AlphaMode_None` / `AlphaMode_Transparency`). -/
inductive AlphaMode
  | noAlpha
  | transparency
deriving DecidableEq

/-- Input pixel formats (`InputFormat_BGRA_8UB` / `InputFormat_RGBA_32F`). -/
inductive InputFormat
  | bgra8ub
  | rgba32f
deriving DecidableEq

/-- Compressed formats handled by `blockSize` and compressed ingestion.  In
`nvtt.h` the `BC1`/`BC2`/`BC3` names are aliases of `DXT1`/`DXT3`/`DXT5`. -/
inductive Format
  | rgba
  | dxt1
  | dxt1a
  | dxt1n
  | dxt3
  | dxt5
  | dxt5n
  | bc4
  | bc5
  | ctx1
deriving DecidableEq

/-- Alias `Format_BC1 = Format_DXT1`. -/
def Format.bc1 : Format := Format.dxt1

/-- Alias `Format_BC2 = Format_DXT3`. -/
def Format.bc2 : Format := Format.dxt3

/-- Alias `Format_BC3 = Format_DXT5`. -/
def Format.bc3 : Format := Format.dxt5

/-- Block decoder variant (`Decoder_Reference` / `Decoder_NV5x`). -/
inductive Decoder
  | reference
  | nv5x
deriving DecidableEq

/-- Mipmap filter (`MipmapFilter_Box` / `MipmapFilter_Triangle` /
`MipmapFilter_Kaiser`). -/
inductive MipmapFilter
  | box
  | triangle
  | kaiser
deriving DecidableEq

/-- Modelled from the spec: the external Float-Image collaborator
(`nvimage::FloatImage`, not part of the sources under study) — a dense
per-channel float buffer addressable by `(x, y, channel)`.  The buffer is
channel-major: channel `c` occupies indices `[c*w*h, (c+1)*w*h)` and
`pixel(idx)` reads the flat buffer at `idx`.  Images handled by the container
always have 4 channels, so a well-formed image has `4*w*h` elements. -/
structure FloatImage where
  width : Nat
  height : Nat
  data : List ℚ
deriving DecidableEq

/-- Well-formedness of a 4-channel float image: the flat buffer holds exactly
`4 * width * height` elements. -/
def FloatImage.wf (img : FloatImage) : Prop :=
  img.data.length = 4 * img.width * img.height

instance (img : FloatImage) : Decidable img.wf := by
  unfold FloatImage.wf; infer_instance

/-- Flat `pixel(idx)` read; `none` models the undefined behaviour of an
out-of-bounds access. -/
def FloatImage.pixelAt (img : FloatImage) (idx : Nat) : Option ℚ :=
  img.data[idx]?

/-- Write of `pixel(x, y, c)`: element `(c * height + y) * width + x` of the
channel-major buffer. -/
def FloatImage.pixelSet (img : FloatImage) (x y c : Nat) (v : ℚ) : FloatImage :=
  { img with data := img.data.set ((c * img.height + y) * img.width + x) v }

/-- The shared payload of a texture handle (`TexImage::Private`): the four
scalar metadata fields plus the ordered face sequence.  Absent faces are
`none`. -/
structure Payload where
  type : TextureType
  wrapMode : WrapMode
  alphaMode : AlphaMode
  isNormalMap : Bool
  faces : List (Option FloatImage)
deriving DecidableEq

/-- Modelled from the spec: a texture is "created empty (no faces)"
(`TexImage::TexImage()` allocates a fresh default `Private`).  The scalar
defaults are 2D / Mirror / None / false; the claims depend only on the face
sequence being empty. -/
def freshPayload : Payload :=
  { type := .type2D, wrapMode := .mirror, alphaMode := .noAlpha,
    isNormalMap := false, faces := [] }

/-! ### Power-of-two helpers

`nextPowerOfTwo` lives in `nvcore` (absent from the sources under study); it is
modelled from the spec as the least power of two that is at least `v`, which is
the reading forced by the documented identities (`previousPowerOfTwo(v) =
nextPowerOfTwo(v+1)/2` together with the comment `1 -> 1, 2 -> 2, 3 -> 2,
4 -> 4, 5 -> 4, ...`).  The helpers are meaningful for `v ≥ 1`. -/

/-- Fuelled doubling loop computing the least power of two `≥ v` (kept
structural so the kernel can evaluate it; `fuel = v` always suffices since
`2 ^ v ≥ v`). -/
def np2Go : Nat → Nat → Nat → Nat
  | 0, _, p => p
  | fuel + 1, v, p => if v ≤ p then p else np2Go fuel v (2 * p)

/-- Modelled from the spec: least power of two `≥ v` (for `v ≥ 1`). -/
def nextPowerOfTwo (v : Nat) : Nat := np2Go v v 1

/-- Helper `previousPowerOfTwo(v) = nextPowerOfTwo(v + 1) / 2`. -/
def previousPowerOfTwo (v : Nat) : Nat := nextPowerOfTwo (v + 1) / 2

/-- Helper `nearestPowerOfTwo`: compares `np2 - v` against `v - pp2` and returns `np2`
when `np2 - v <= v - pp2`, otherwise `pp2`. -/
def nearestPowerOfTwo (v : Nat) : Nat :=
  let np2 := nextPowerOfTwo v
  let pp2 := previousPowerOfTwo v
  if np2 - v ≤ v - pp2 then np2 else pp2

/-- Helper `blockSize`: byte size of one compressed 4×4 block, 0 for uncompressed
formats. -/
def blockSize (format : Format) : Nat :=
  if format = .dxt1 ∨ format = .dxt1a ∨ format = .dxt1n then 8
  else if format = .dxt3 then 16
  else if format = .dxt5 ∨ format = .dxt5n then 16
  else if format = .bc4 then 8
  else if format = .bc5 then 16
  else if format = .ctx1 then 8
  else 0

/-! ### countMipmaps

The source loop repeatedly halves each extent (integer floor, clamped to at
least 1) until all reach 1, and returns the step count plus one.  The Lean
version recurses on an explicit fuel argument (kept structural so that the
kernel can evaluate it); `cmGo_stable` shows the result is independent of the
fuel once the fuel is at least the natural termination measure, and
`countMipmaps_eq` recovers the loop equation. -/

/-- One halving step of the `countMipmaps` loop: `max(1, n / 2)`. -/
def mipExtent (n : Nat) : Nat := max 1 (n / 2)

/-- Termination measure for one extent of the `countMipmaps` loop. -/
def cmMeasure (n : Nat) : Nat := if n = 0 then 2 else if n = 1 then 0 else n

theorem cmMeasure_of_two_le (n : Nat) (h : 2 ≤ n) : cmMeasure n = n := by
  unfold cmMeasure; split_ifs <;> omega

theorem mipExtent_of_four_le (n : Nat) (h : 4 ≤ n) : mipExtent n = n / 2 := by
  unfold mipExtent; omega

theorem cmMeasure_mipExtent_lt (n : Nat) (hn : n ≠ 1) :
    cmMeasure (mipExtent n) < cmMeasure n := by
  rcases n with _ | _ | _ | _ | n
  · decide
  · exact absurd rfl hn
  · decide
  · decide
  · rw [mipExtent_of_four_le (n + 4) (by omega),
      cmMeasure_of_two_le ((n + 4) / 2) (by omega),
      cmMeasure_of_two_le (n + 4) (by omega)]
    omega

theorem cmMeasure_mipExtent_le (n : Nat) : cmMeasure (mipExtent n) ≤ cmMeasure n := by
  by_cases hn : n = 1
  · subst hn; decide
  · exact le_of_lt (cmMeasure_mipExtent_lt n hn)

/-- Fuelled body of the `countMipmaps` loop. -/
def cmGo : Nat → Nat → Nat → Nat → Nat
  | 0, _, _, _ => 1
  | fuel + 1, w, h, d =>
      if w = 1 ∧ h = 1 ∧ d = 1 then 1
      else 1 + cmGo fuel (mipExtent w) (mipExtent h) (mipExtent d)

/-- Helper `countMipmaps(w, h, d)`: number of halving steps until every extent is 1,
plus one. -/
def countMipmaps (w h d : Nat) : Nat :=
  cmGo (cmMeasure w + cmMeasure h + cmMeasure d) w h d

theorem cmMeasure_eq_zero (n : Nat) : cmMeasure n = 0 ↔ n = 1 := by
  constructor
  · intro h
    unfold cmMeasure at h
    split_ifs at h <;> omega
  · intro h
    subst h
    decide

theorem cmGo_stable : ∀ (f g w h d : Nat),
    cmMeasure w + cmMeasure h + cmMeasure d ≤ f →
    cmMeasure w + cmMeasure h + cmMeasure d ≤ g →
    cmGo f w h d = cmGo g w h d := by
  intro f
  induction f with
  | zero =>
    intro g w h d hf _
    have hw : w = 1 := (cmMeasure_eq_zero w).1 (by omega)
    have hh : h = 1 := (cmMeasure_eq_zero h).1 (by omega)
    have hd : d = 1 := (cmMeasure_eq_zero d).1 (by omega)
    subst hw; subst hh; subst hd
    cases g with
    | zero => rfl
    | succ g => simp [cmGo]
  | succ f ih =>
    intro g w h d hf hg
    cases g with
    | zero =>
      have hw : w = 1 := (cmMeasure_eq_zero w).1 (by omega)
      have hh : h = 1 := (cmMeasure_eq_zero h).1 (by omega)
      have hd : d = 1 := (cmMeasure_eq_zero d).1 (by omega)
      subst hw; subst hh; subst hd
      simp [cmGo]
    | succ g =>
      by_cases hstop : w = 1 ∧ h = 1 ∧ d = 1
      · simp [cmGo, hstop]
      · have hne : ¬(w = 1 ∧ h = 1 ∧ d = 1) := hstop
        have hlt : cmMeasure (mipExtent w) + cmMeasure (mipExtent h) + cmMeasure (mipExtent d)
            < cmMeasure w + cmMeasure h + cmMeasure d := by
          have lw := cmMeasure_mipExtent_le w
          have lh := cmMeasure_mipExtent_le h
          have ld := cmMeasure_mipExtent_le d
          by_cases h1 : w = 1
          · by_cases h2 : h = 1
            · have h3 : d ≠ 1 := fun hd1 => hne ⟨h1, h2, hd1⟩
              have := cmMeasure_mipExtent_lt d h3; omega
            · have := cmMeasure_mipExtent_lt h h2; omega
          · have := cmMeasure_mipExtent_lt w h1; omega
        simp only [cmGo, if_neg hne]
        have := ih g (mipExtent w) (mipExtent h) (mipExtent d) (by omega) (by omega)
        omega

/-- Loop equation for `countMipmaps`. -/
theorem countMipmaps_eq (w h d : Nat) :
    countMipmaps w h d =
      if w = 1 ∧ h = 1 ∧ d = 1 then 1
      else 1 + countMipmaps (mipExtent w) (mipExtent h) (mipExtent d) := by
  by_cases hstop : w = 1 ∧ h = 1 ∧ d = 1
  · obtain ⟨h1, h2, h3⟩ := hstop
    subst h1; subst h2; subst h3
    simp [countMipmaps, cmMeasure, cmGo]
  · have hpos : 0 < cmMeasure w + cmMeasure h + cmMeasure d := by
      by_contra hz
      exact hstop ⟨(cmMeasure_eq_zero w).1 (by omega),
        (cmMeasure_eq_zero h).1 (by omega), (cmMeasure_eq_zero d).1 (by omega)⟩
    obtain ⟨k, hk⟩ : ∃ k, cmMeasure w + cmMeasure h + cmMeasure d = k + 1 :=
      ⟨cmMeasure w + cmMeasure h + cmMeasure d - 1, by omega⟩
    simp only [countMipmaps, hk, cmGo, if_neg hstop]
    congr 1
    exact cmGo_stable k _ (mipExtent w) (mipExtent h) (mipExtent d)
      (by
        have lw := cmMeasure_mipExtent_le w
        have lh := cmMeasure_mipExtent_le h
        have ld := cmMeasure_mipExtent_le d
        by_cases h1 : w = 1
        · by_cases h2 : h = 1
          · have h3 : d ≠ 1 := fun hd1 => hstop ⟨h1, h2, hd1⟩
            have := cmMeasure_mipExtent_lt d h3; omega
          · have := cmMeasure_mipExtent_lt h h2; omega
        · have := cmMeasure_mipExtent_lt w h1; omega)
      (le_refl _)

/-! ### Payload-level operations

These model the `TexImage` methods as acting directly on the payload, which is
exact for an unshared handle (there `detach` is the identity).  The sharing
behaviour of `detach` is modelled separately in the heap section below. -/

/-- Face count mandated by a texture type (1 for 2D, 6 for cube). -/
def mandatedFaceCount : TextureType → Nat
  | .type2D => 1
  | .typeCube => 6

/-- Method `TexImage::setTextureType`: a no-op when the type is unchanged; otherwise
deletes all but the first `count` faces and resizes the face sequence to
`count`, padding with absent faces. -/
def setTextureType (t : TextureType) (s : Payload) : Payload :=
  if s.type = t then s
  else
    { s with
        type := t
        faces := s.faces.take (mandatedFaceCount t) ++
          List.replicate (mandatedFaceCount t - s.faces.length) none }

/-- Method `TexImage::setWrapMode` (guarded no-op, then assignment). -/
def setWrapMode (w : WrapMode) (s : Payload) : Payload :=
  if s.wrapMode = w then s else { s with wrapMode := w }

/-- Method `TexImage::setAlphaMode` (guarded no-op, then assignment). -/
def setAlphaMode (a : AlphaMode) (s : Payload) : Payload :=
  if s.alphaMode = a then s else { s with alphaMode := a }

/-- Method `TexImage::setNormalMap` (guarded no-op, then assignment). -/
def setNormalMap (b : Bool) (s : Payload) : Payload :=
  if s.isNormalMap = b then s else { s with isNormalMap := b }

/-- Method `TexImage::load`: the file is read by the external ImageIO collaborator,
modelled as the `loaded` argument (`none` = load failure).  On success the
loaded image is coerced to 4 channels (images are 4-channel by construction
here) and installed as the single face — regardless of the texture type. -/
def load (loaded : Option FloatImage) (s : Payload) : Bool × Payload :=
  match loaded with
  | none => (false, s)
  | some img => (true, { s with faces := [some img] })

/-! ### Ingestion (`TexImage::setImage2D`, three overloads) -/

/-- Byte read from a caller-owned buffer.  Callers must supply `w*h` pixels
(spec §6); out-of-range reads default to 0 and are never exercised by the
claims. -/
def byteAt (bytes : List Nat) (i : Nat) : ℚ := (bytes.getD i 0 : Nat)

/-- Channel-major data written by interleaved 8-bit BGRA ingestion:
`rdst[i] = src[i].r` and so on, where `Color32` stores its bytes in b,g,r,a
order.  Note the raw byte value is stored — there is no 1/255 scaling in this
overload. -/
def bgraChannelData (bytes : List Nat) (count : Nat) : List ℚ :=
  (List.range count).map (fun i => byteAt bytes (4 * i + 2)) ++
  (List.range count).map (fun i => byteAt bytes (4 * i + 1)) ++
  (List.range count).map (fun i => byteAt bytes (4 * i)) ++
  (List.range count).map (fun i => byteAt bytes (4 * i + 3))

/-- Channel-major data written by interleaved 32-bit float RGBA ingestion:
`rdst[i] = src[4*i+0]`, ..., `adst[i] = src[4*i+3]` (direct copy, no
scaling). -/
def rgbaFloatChannelData (src : List ℚ) (count : Nat) : List ℚ :=
  (List.range count).map (fun i => src.getD (4 * i) 0) ++
  (List.range count).map (fun i => src.getD (4 * i + 1) 0) ++
  (List.range count).map (fun i => src.getD (4 * i + 2) 0) ++
  (List.range count).map (fun i => src.getD (4 * i + 3) 0)

/-- First `setImage2D` overload (single interleaved buffer).  The source's one
untyped `data` pointer is passed as whichever of `bytes`/`floats` the format
selects; the other argument is ignored.  Checks, in source order: face index
in range (else `false`), face dimensions match (dereferencing the face — a
`none` face is a null-pointer fault, modelled as `none`), then writes the four
channels and reports `true`. -/
def setImage2D (format : InputFormat) (w h : Nat) (idx : ℤ) (bytes : List Nat)
    (floats : List ℚ) (s : Payload) : Option (Bool × Payload) :=
  if idx < 0 ∨ s.faces.length ≤ idx.toNat then some (false, s)
  else
    match s.faces.getD idx.toNat none with
    | none => none
    | some img =>
      if img.width ≠ w ∨ img.height ≠ h then some (false, s)
      else
        let count := w * h
        let newData :=
          match format with
          | .bgra8ub => bgraChannelData bytes count
          | .rgba32f => rgbaFloatChannelData floats count
        some (true,
          { s with faces := s.faces.set idx.toNat (some { img with data := newData }) })

/-- One planar 8-bit channel: `dst[i] = float(src[i]) / 255.0f`. -/
def planarByteChannel (src : List Nat) (count : Nat) : List ℚ :=
  (List.range count).map (fun i => (src.getD i 0 : Nat) / 255)

/-- One planar float channel (`memcpy` of `count` floats). -/
def planarFloatChannel (src : List ℚ) (count : Nat) : List ℚ :=
  (List.range count).map (fun i => src.getD i 0)

/-- Second `setImage2D` overload (four planar buffers).  Same checks as the
interleaved overload; the 8-bit path scales every byte by 1/255, the float
path is a bulk copy. -/
def setImage2Dplanar (format : InputFormat) (w h : Nat) (idx : ℤ)
    (rB gB bB aB : List Nat) (rF gF bF aF : List ℚ) (s : Payload) :
    Option (Bool × Payload) :=
  if idx < 0 ∨ s.faces.length ≤ idx.toNat then some (false, s)
  else
    match s.faces.getD idx.toNat none with
    | none => none
    | some img =>
      if img.width ≠ w ∨ img.height ≠ h then some (false, s)
      else
        let count := w * h
        let newData :=
          match format with
          | .bgra8ub =>
              planarByteChannel rB count ++ planarByteChannel gB count ++
              planarByteChannel bB count ++ planarByteChannel aB count
          | .rgba32f =>
              planarFloatChannel rF count ++ planarFloatChannel gF count ++
              planarFloatChannel bF count ++ planarFloatChannel aF count
        some (true,
          { s with faces := s.faces.set idx.toNat (some { img with data := newData }) })

/-- One decoded 8-bit RGBA texel produced by the external block decoder. -/
structure DecodedColor where
  r : Nat
  g : Nat
  b : Nat
  a : Nat

/-- Writes the 16 decoded texels of block `(x, y)` into the image, scaling
each byte by 1/255 and discarding texels outside the true `(w, h)` bounds. -/
def writeBlockPixels (w h x y : Nat) (colors : Nat → Nat → DecodedColor)
    (img : FloatImage) : FloatImage :=
  (List.range 4).foldl (fun im yy =>
    (List.range 4).foldl (fun im xx =>
      let c := colors xx yy
      if x * 4 + xx < w ∧ y * 4 + yy < h then
        ((((im.pixelSet (x * 4 + xx) (y * 4 + yy) 0 ((c.r : Nat) / 255 : ℚ)).pixelSet
            (x * 4 + xx) (y * 4 + yy) 1 ((c.g : Nat) / 255 : ℚ)).pixelSet
            (x * 4 + xx) (y * 4 + yy) 2 ((c.b : Nat) / 255 : ℚ)).pixelSet
            (x * 4 + xx) (y * 4 + yy) 3 ((c.a : Nat) / 255 : ℚ))
      else im) im) img

/-- Third `setImage2D` overload (block-compressed data).  The external block
decoder (BC1/BC2/BC3, reference or NV5x variant) is passed as `decodeBlock`,
mapping the block's bytes and an `(xx, yy)` texel position to a decoded color.
Checks, in source order: face index in range, format is BC1/BC2/BC3 (else
`false`), face dimensions match (dereferencing the face — a `none` face is a
null-pointer fault), then decodes the `⌈w/4⌉ × ⌈h/4⌉` block grid. -/
def setImage2Dcompressed
    (decodeBlock : Format → Decoder → List Nat → Nat → Nat → DecodedColor)
    (format : Format) (decoder : Decoder) (w h : Nat) (idx : ℤ) (data : List Nat)
    (s : Payload) : Option (Bool × Payload) :=
  if idx < 0 ∨ s.faces.length ≤ idx.toNat then some (false, s)
  else if format ≠ Format.bc1 ∧ format ≠ Format.bc2 ∧ format ≠ Format.bc3 then
    some (false, s)
  else
    match s.faces.getD idx.toNat none with
    | none => none
    | some img =>
      if img.width ≠ w ∨ img.height ≠ h then some (false, s)
      else
        let bw := (w + 3) / 4
        let bh := (h + 3) / 4
        let bs := blockSize format
        let img' := (List.range bh).foldl (fun im y =>
          (List.range bw).foldl (fun im x =>
            writeBlockPixels w h x y
              (decodeBlock format decoder ((data.drop ((y * bw + x) * bs)).take bs))
              im) im) img
        some (true, { s with faces := s.faces.set idx.toNat (some img') })

/-! ### Helper lemmas for channel indexing -/

theorem mapRange_length (f : Nat → ℚ) (count : Nat) :
    ((List.range count).map f).length = count := by simp

theorem mapRange_getElem (f : Nat → ℚ) (count i : Nat) (hi : i < count) :
    ((List.range count).map f)[i]? = some (f i) := by
  rw [List.getElem?_map, List.getElem?_range hi]
  rfl

theorem getElem?_append_of_lt (l₁ l₂ : List ℚ) (n : Nat) (h : n < l₁.length) :
    (l₁ ++ l₂)[n]? = l₁[n]? := by
  rw [List.getElem?_append, if_pos h]

theorem getElem?_append_off (l₁ l₂ : List ℚ) (n : Nat) :
    (l₁ ++ l₂)[l₁.length + n]? = l₂[n]? := by
  rw [List.getElem?_append_right (by omega), Nat.add_sub_cancel_left]

theorem quadChannels_getElem (f0 f1 f2 f3 : Nat → ℚ) (count i : Nat) (hi : i < count) :
    (((List.range count).map f0 ++ (List.range count).map f1 ++
      (List.range count).map f2 ++ (List.range count).map f3)[i]? = some (f0 i)) ∧
    (((List.range count).map f0 ++ (List.range count).map f1 ++
      (List.range count).map f2 ++ (List.range count).map f3)[count + i]? = some (f1 i)) ∧
    (((List.range count).map f0 ++ (List.range count).map f1 ++
      (List.range count).map f2 ++ (List.range count).map f3)[2 * count + i]? = some (f2 i)) ∧
    (((List.range count).map f0 ++ (List.range count).map f1 ++
      (List.range count).map f2 ++ (List.range count).map f3)[3 * count + i]? = some (f3 i)) := by
  have h0 := mapRange_length f0 count
  have h1 := mapRange_length f1 count
  have h2 := mapRange_length f2 count
  have h3 := mapRange_length f3 count
  simp only [List.append_assoc]
  refine ⟨?_, ?_, ?_, ?_⟩
  · rw [getElem?_append_of_lt _ _ i (by omega), mapRange_getElem f0 count i hi]
  · rw [show count + i = (List.map f0 (List.range count)).length + i by omega,
      getElem?_append_off, getElem?_append_of_lt _ _ i (by omega),
      mapRange_getElem f1 count i hi]
  · rw [show 2 * count + i = (List.map f0 (List.range count)).length + (count + i) by omega,
      getElem?_append_off,
      show count + i = (List.map f1 (List.range count)).length + i by omega,
      getElem?_append_off, getElem?_append_of_lt _ _ i (by omega),
      mapRange_getElem f2 count i hi]
  · rw [show 3 * count + i = (List.map f0 (List.range count)).length + (2 * count + i) by omega,
      getElem?_append_off,
      show 2 * count + i = (List.map f1 (List.range count)).length + (count + i) by omega,
      getElem?_append_off,
      show count + i = (List.map f2 (List.range count)).length + i by omega,
      getElem?_append_off, mapRange_getElem f3 count i hi]

/-! ### Claim C3: the face-count invariant -/

/-- C3 (counterexample): a freshly constructed texture has an empty face
sequence while its type mandates 1 face slot (a cube would mandate 6), so the
invariant "`faces.length` always equals the count mandated by `type` in every
reachable state" already fails at the initial state. -/
theorem freshPayload_violates_faceCount :
    ¬ freshPayload.faces.length = mandatedFaceCount freshPayload.type := by decide

/-- C3 (amended): whenever `setTextureType` actually changes the type it
establishes `faces.length = mandatedFaceCount type`; the metadata setters
preserve the face count; but a freshly constructed texture has 0 face slots,
and `load` always installs exactly 1 face regardless of the texture type. -/
theorem faceCount_discipline :
    (∀ (s : Payload) (t : TextureType), s.type ≠ t →
      (setTextureType t s).faces.length = mandatedFaceCount t ∧
        (setTextureType t s).type = t) ∧
    (∀ (s : Payload) (w : WrapMode), (setWrapMode w s).faces.length = s.faces.length) ∧
    (∀ (s : Payload) (a : AlphaMode), (setAlphaMode a s).faces.length = s.faces.length) ∧
    (∀ (s : Payload) (b : Bool), (setNormalMap b s).faces.length = s.faces.length) ∧
    freshPayload.faces.length = 0 ∧
    (∀ (s : Payload) (img : FloatImage), ((load (some img) s).2).faces.length = 1) := by
  refine ⟨?_, ?_, ?_, ?_, rfl, ?_⟩
  · intro s t hne
    have h : ¬ s.type = t := hne
    constructor
    · simp only [setTextureType, if_neg h, List.length_append, List.length_take,
        List.length_replicate]
      omega
    · simp only [setTextureType, if_neg h]
  · intro s w
    unfold setWrapMode
    split_ifs <;> rfl
  · intro s a
    unfold setAlphaMode
    split_ifs <;> rfl
  · intro s b
    unfold setNormalMap
    split_ifs <;> rfl
  · intro s img
    rfl

/-- C3 (witness): the amended discipline instantiated at concrete inputs. -/
theorem faceCount_discipline_witness :
    (setTextureType .typeCube freshPayload).faces.length = mandatedFaceCount .typeCube ∧
    (setWrapMode .clamp freshPayload).faces.length = freshPayload.faces.length ∧
    ((load (some ⟨1, 1, [0, 0, 0, 0]⟩) freshPayload).2).faces.length = 1 :=
  ⟨(faceCount_discipline.1 freshPayload .typeCube (by decide)).1,
   faceCount_discipline.2.1 freshPayload .clamp,
   faceCount_discipline.2.2.2.2.2 freshPayload ⟨1, 1, [0, 0, 0, 0]⟩⟩

/-! ### Claim C2: interleaved ingestion values -/

/-- A 1×1 all-zero image, used as a concrete face. -/
def zeroImage1x1 : FloatImage := ⟨1, 1, [0, 0, 0, 0]⟩

/-- A plain 2D payload with a single populated 1×1 zero face. -/
def onePayload1x1 : Payload :=
  { type := .type2D, wrapMode := .mirror, alphaMode := .noAlpha,
    isNormalMap := false, faces := [some zeroImage1x1] }

/-- C2 (counterexample): ingesting the interleaved BGRA pixel
`(b,g,r,a) = (0,0,255,255)` into a matching 1×1 face stores the raw byte value
255 into the red channel — not `255/255 = 1.0` as the claim states. -/
theorem setImage2D_bgra_not_scaled :
    ((setImage2D .bgra8ub 1 1 0 [0, 0, 255, 255] [] onePayload1x1).map
        (fun r => (r.2.faces.getD 0 none).map FloatImage.data) =
      some (some [255, 0, 0, 255])) ∧
    ¬ ((setImage2D .bgra8ub 1 1 0 [0, 0, 255, 255] [] onePayload1x1).map
        (fun r => (r.2.faces.getD 0 none).map FloatImage.data) =
      some (some [1, 0, 0, 1])) := by
  constructor
  · decide
  · decide

/-- C2 (amended): interleaved 8-bit BGRA ingestion on a valid face index with
matching dimensions succeeds and stores each source pixel's R, G, B, A bytes
into float channels 0..3 as raw byte values (byte 255 becomes 255.0 — no
1/255 scaling in this overload, unlike the planar one), with the channel order
transformed from the BGRA byte order; the 32-bit float RGBA format is copied
directly without scaling. -/
theorem setImage2D_interleaved_spec (s : Payload) (img : FloatImage) (w h : Nat)
    (idx : ℤ) (bytes : List Nat) (floats : List ℚ)
    (h0 : ¬ idx < 0) (h1 : idx.toNat < s.faces.length)
    (h2 : s.faces.getD idx.toNat none = some img)
    (hw : img.width = w) (hh : img.height = h) :
    (setImage2D .bgra8ub w h idx bytes floats s =
      some (true, { s with faces := (s.faces.set idx.toNat
        (some { img with data := bgraChannelData bytes (w * h) })) })) ∧
    (setImage2D .rgba32f w h idx bytes floats s =
      some (true, { s with faces := (s.faces.set idx.toNat
        (some { img with data := rgbaFloatChannelData floats (w * h) })) })) ∧
    (∀ i, i < w * h →
      (bgraChannelData bytes (w * h))[i]? = some (byteAt bytes (4 * i + 2)) ∧
      (bgraChannelData bytes (w * h))[w * h + i]? = some (byteAt bytes (4 * i + 1)) ∧
      (bgraChannelData bytes (w * h))[2 * (w * h) + i]? = some (byteAt bytes (4 * i)) ∧
      (bgraChannelData bytes (w * h))[3 * (w * h) + i]? = some (byteAt bytes (4 * i + 3))) ∧
    (∀ i, i < w * h →
      (rgbaFloatChannelData floats (w * h))[i]? = some (floats.getD (4 * i) 0) ∧
      (rgbaFloatChannelData floats (w * h))[w * h + i]? = some (floats.getD (4 * i + 1) 0) ∧
      (rgbaFloatChannelData floats (w * h))[2 * (w * h) + i]? = some (floats.getD (4 * i + 2) 0) ∧
      (rgbaFloatChannelData floats (w * h))[3 * (w * h) + i]? = some (floats.getD (4 * i + 3) 0)) := by
  have hguard : ¬ (idx < 0 ∨ s.faces.length ≤ idx.toNat) := by
    push_neg
    exact ⟨by omega, h1⟩
  refine ⟨?_, ?_, ?_, ?_⟩
  · simp only [setImage2D, if_neg hguard, h2, if_neg (by omega : ¬ (img.width ≠ w ∨ img.height ≠ h))]
  · simp only [setImage2D, if_neg hguard, h2, if_neg (by omega : ¬ (img.width ≠ w ∨ img.height ≠ h))]
  · intro i hi
    exact quadChannels_getElem _ _ _ _ (w * h) i hi
  · intro i hi
    exact quadChannels_getElem _ _ _ _ (w * h) i hi

/-- C2 (witness): the amended ingestion specification instantiated on a 1×1
face with the BGRA pixel `(b,g,r,a) = (10,20,30,40)` and the float pixel
`(1/2, 1/3, 1/4, 1)`. -/
theorem setImage2D_interleaved_spec_witness :
    (setImage2D .bgra8ub 1 1 0 [10, 20, 30, 40] [1/2, 1/3, 1/4, 1] onePayload1x1 =
      some (true, { onePayload1x1 with faces := [some { zeroImage1x1 with
        data := bgraChannelData [10, 20, 30, 40] 1 }] })) ∧
    (bgraChannelData [10, 20, 30, 40] 1)[0]? = some (byteAt [10, 20, 30, 40] 2) := by
  have h := setImage2D_interleaved_spec onePayload1x1 zeroImage1x1 1 1 0
    [10, 20, 30, 40] [1/2, 1/3, 1/4, 1] (by decide) (by decide) (by decide)
    (by decide) (by decide)
  exact ⟨h.1, ((h.2.2.1 0 (by decide)).1 : _)⟩

/-! ### Claim C9: the unpopulated-face precondition of ingestion -/

/-- A plain 2D payload whose single face slot exists but is unpopulated. -/
def nullFacePayload : Payload :=
  { type := .type2D, wrapMode := .mirror, alphaMode := .noAlpha,
    isNormalMap := false, faces := [none] }

/-- C9: all three `setImage2D` overloads verify only that the face index is in
range (and, for the compressed overload, that the format is supported) before
dereferencing the face to read its dimensions; on a valid index whose slot is
unpopulated the dimension check dereferences the absent face (a fault,
modelled as `none`) instead of returning the boolean failure. -/
theorem setImage2D_null_face_fault (s : Payload) (idx : ℤ)
    (fmt : InputFormat) (w h : Nat) (bytes rB gB bB aB : List Nat)
    (floats rF gF bF aF : List ℚ)
    (decodeBlock : Format → Decoder → List Nat → Nat → Nat → DecodedColor)
    (cfmt : Format) (dec : Decoder) (cdata : List Nat)
    (h0 : ¬ idx < 0) (h1 : idx.toNat < s.faces.length)
    (h2 : s.faces.getD idx.toNat none = none)
    (h3 : cfmt = Format.bc1 ∨ cfmt = Format.bc2 ∨ cfmt = Format.bc3) :
    setImage2D fmt w h idx bytes floats s = none ∧
    setImage2Dplanar fmt w h idx rB gB bB aB rF gF bF aF s = none ∧
    setImage2Dcompressed decodeBlock cfmt dec w h idx cdata s = none := by
  have hguard : ¬ (idx < 0 ∨ s.faces.length ≤ idx.toNat) := by
    push_neg
    exact ⟨by omega, h1⟩
  have hfmt : ¬ (cfmt ≠ Format.bc1 ∧ cfmt ≠ Format.bc2 ∧ cfmt ≠ Format.bc3) := by
    rcases h3 with h | h | h <;> simp [h]
  refine ⟨?_, ?_, ?_⟩
  · simp only [setImage2D, if_neg hguard, h2]
  · simp only [setImage2Dplanar, if_neg hguard, h2]
  · simp only [setImage2Dcompressed, if_neg hguard, if_neg hfmt, h2]

/-- C9 (witness): the fault exhibited on a concrete payload whose only face
slot is unpopulated, for all three overloads (BC1 for the compressed one). -/
theorem setImage2D_null_face_fault_witness :
    setImage2D .bgra8ub 4 4 0 [] [] nullFacePayload = none ∧
    setImage2Dplanar .bgra8ub 4 4 0 [] [] [] [] [] [] [] [] nullFacePayload = none ∧
    setImage2Dcompressed (fun _ _ _ _ _ => ⟨0, 0, 0, 0⟩) Format.bc1 .reference 4 4 0 []
      nullFacePayload = none :=
  setImage2D_null_face_fault nullFacePayload 0 .bgra8ub 4 4 [] [] [] [] []
    [] [] [] [] [] (fun _ _ _ _ _ => ⟨0, 0, 0, 0⟩) Format.bc1 .reference []
    (by decide) (by decide) (by decide) (Or.inl rfl)

/-! ### Channel copy (`TexImage::copyChannel`) -/

/-- One face pair of the `copyChannel` loop: absent-face check, then dimension
check (both returning `false` and stopping the loop, leaving the remaining
faces as they are), then a `memcpy` of `w*h` floats from channel `sc` of the
source face into channel `dc` of the destination face.  The final catch-all
arm (face sequences of different lengths) is unreachable because the caller
checks the face counts first.  Channel indices are assumed in range (0..3)
per the API contract. -/
def copyChannelLoop (sc dc : Nat) :
    List (Option FloatImage) → List (Option FloatImage) → Bool × List (Option FloatImage)
  | some dst :: ds, some src :: ss =>
      if src.width ≠ dst.width ∨ src.height ≠ dst.height then (false, some dst :: ds)
      else
        let count := src.width * src.height
        let dst' : FloatImage :=
          { dst with data := dst.data.take (dc * count) ++
              (src.data.drop (sc * count)).take count ++
              dst.data.drop (dc * count + count) }
        let r := copyChannelLoop sc dc ds ss
        (r.1, some dst' :: r.2)
  | d :: ds, _ :: _ => (false, d :: ds)
  | l, _ => (true, l)

/-- Method `TexImage::copyChannel(srcImage, srcChannel, dstChannel)`: fails up front
on a face-count mismatch (destination untouched); otherwise walks the face
pairs, copying channel data and stopping with `false` at the first absent
face or per-face dimension mismatch — faces processed before the failure stay
overwritten. -/
def copyChannel (dst src : Payload) (sc dc : Nat) : Bool × Payload :=
  if dst.faces.length ≠ src.faces.length then (false, dst)
  else
    let r := copyChannelLoop sc dc dst.faces src.faces
    (r.1, { dst with faces := r.2 })

/-- Whether a face pair makes the `copyChannel` loop fail: an absent face on
either side, or differing dimensions. -/
def faceMismatch : Option FloatImage → Option FloatImage → Bool
  | some d, some s => decide (s.width ≠ d.width ∨ s.height ≠ d.height)
  | _, _ => true

theorem copyChannelLoop_false (sc dc : Nat) :
    ∀ (k : Nat) (ds ss : List (Option FloatImage)),
      ds.length = ss.length → k < ds.length →
      faceMismatch (ds.getD k none) (ss.getD k none) = true →
      (copyChannelLoop sc dc ds ss).1 = false := by
  intro k
  induction k with
  | zero =>
    intro ds ss hlen hk hm
    match ds, ss with
    | [], _ => exact absurd hk (by simp)
    | d :: ds', [] => exact absurd hlen (by simp)
    | some dst :: ds', some src :: ss' =>
      simp only [List.getD_cons_zero, faceMismatch, decide_eq_true_eq] at hm
      simp only [copyChannelLoop, if_pos hm]
    | none :: ds', s :: ss' =>
      simp only [copyChannelLoop]
    | some dst :: ds', none :: ss' =>
      simp only [copyChannelLoop]
  | succ k ih =>
    intro ds ss hlen hk hm
    match ds, ss with
    | [], _ => exact absurd hk (by simp)
    | d :: ds', [] => exact absurd hlen (by simp)
    | some dst :: ds', some src :: ss' =>
      by_cases hdim : src.width ≠ dst.width ∨ src.height ≠ dst.height
      · simp only [copyChannelLoop, if_pos hdim]
      · simp only [copyChannelLoop, if_neg hdim]
        exact ih ds' ss' (by simpa using hlen) (by simpa using hk) (by simpa using hm)
    | none :: ds', s :: ss' =>
      simp only [copyChannelLoop]
    | some dst :: ds', none :: ss' =>
      simp only [copyChannelLoop]

/-- C5 (counterexample): two 6-face cube textures whose faces all match except
face 1 (destination 2×1, source 1×1).  `copyChannel` returns `false`, but the
destination's face 0 has already been overwritten with the source's channel
data — the operation is not rejected before any write begins. -/
def copyDstCE : Payload :=
  { type := .typeCube, wrapMode := .mirror, alphaMode := .noAlpha,
    isNormalMap := false,
    faces := [some ⟨1, 1, [1, 1, 1, 1]⟩, some ⟨2, 1, [2, 2, 2, 2, 2, 2, 2, 2]⟩,
      some ⟨1, 1, [1, 1, 1, 1]⟩, some ⟨1, 1, [1, 1, 1, 1]⟩,
      some ⟨1, 1, [1, 1, 1, 1]⟩, some ⟨1, 1, [1, 1, 1, 1]⟩] }

/-- Source texture for the C5 counterexample. -/
def copySrcCE : Payload :=
  { type := .typeCube, wrapMode := .mirror, alphaMode := .noAlpha,
    isNormalMap := false,
    faces := [some ⟨1, 1, [5, 6, 7, 8]⟩, some ⟨1, 1, [9, 9, 9, 9]⟩,
      some ⟨1, 1, [1, 1, 1, 1]⟩, some ⟨1, 1, [1, 1, 1, 1]⟩,
      some ⟨1, 1, [1, 1, 1, 1]⟩, some ⟨1, 1, [1, 1, 1, 1]⟩] }

/-- C5 (counterexample): the failing `copyChannel` call has already mutated
the destination's pixel data when it reports failure. -/
theorem copyChannel_partial_mutation :
    (copyChannel copyDstCE copySrcCE 0 0).1 = false ∧
    ¬ (copyChannel copyDstCE copySrcCE 0 0).2 = copyDstCE := by
  constructor
  · decide
  · decide

/-- C5 (amended): `copyChannel` returns `false` whenever the face counts
differ, a corresponding face pair has an absent face, or a pair differs in
dimensions; the destination is left unchanged when the face counts differ
(that check precedes any write), but a null-face or dimension failure at face
`k` leaves the faces before `k` already overwritten. -/
theorem copyChannel_failure_spec (dst src : Payload) (sc dc k : Nat) :
    (dst.faces.length ≠ src.faces.length →
      copyChannel dst src sc dc = (false, dst)) ∧
    (dst.faces.length = src.faces.length → k < dst.faces.length →
      faceMismatch (dst.faces.getD k none) (src.faces.getD k none) = true →
      (copyChannel dst src sc dc).1 = false) := by
  constructor
  · intro hne
    simp only [copyChannel, if_pos hne]
  · intro hlen hk hm
    simp only [copyChannel, if_neg (by omega : ¬ dst.faces.length ≠ src.faces.length)]
    exact copyChannelLoop_false sc dc k dst.faces src.faces hlen hk hm

/-- C5 (witness): the failure specification applied to concrete inputs — a
face-count mismatch (0 faces vs 1 face) leaves the destination untouched, and
the 6-face dimension mismatch above yields `false`. -/
theorem copyChannel_failure_spec_witness :
    copyChannel freshPayload onePayload1x1 0 0 = (false, freshPayload) ∧
    (copyChannel copyDstCE copySrcCE 0 0).1 = false :=
  ⟨(copyChannel_failure_spec freshPayload onePayload1x1 0 0 0).1 (by decide),
   (copyChannel_failure_spec copyDstCE copySrcCE 0 0 1).2 (by decide) (by decide) (by decide)⟩

/-! ### Root-mean-squared-error metrics -/

/-- Result of an RMSE metric.  The C++ returns `float(sqrt(mse / totalCount))`;
`sqrt` is strictly monotone and the claims under study concern only the
sentinel / fault / NaN behaviour, so `val q` carries the radicand
`mse / totalCount`.  `fltMax` is the `FLT_MAX` sentinel and `nanOut` the IEEE
NaN produced by `sqrt(0.0 / 0)` when no samples were accumulated (a zero
`totalCount` forces `mse = 0`, and `0.0 / 0 = NaN` in IEEE arithmetic). -/
inductive RmseOut
  | fltMax
  | nanOut
  | val (radicand : ℚ)
deriving DecidableEq

/-- Per-face accumulation of `rootMeanSquaredError_rgb`: the source reads the
flat indices `4*i + count*c` (`count = w*h` of this image, `c` the channel)
from both images and accumulates the squared R, G, B differences, each
multiplied by `a1 / 255` when the reference's alpha mode is Transparency.
With the channel-major layout these indices leave the 4-channel buffer for
any face larger than 1×1; `none` marks such an out-of-bounds `pixel()` read
(undefined behaviour in the C++). -/
def rgbFaceAcc (refAlpha : AlphaMode) (img ref : FloatImage) : Option ℚ :=
  let count := img.width * img.height
  (List.range count).foldl (fun acc i =>
    acc.bind fun s =>
      (img.pixelAt (4 * i + count * 0)).bind fun r0 =>
      (img.pixelAt (4 * i + count * 1)).bind fun g0 =>
      (img.pixelAt (4 * i + count * 2)).bind fun b0 =>
      (img.pixelAt (4 * i + count * 3)).bind fun _a0 =>
      (ref.pixelAt (4 * i + count * 0)).bind fun r1 =>
      (ref.pixelAt (4 * i + count * 1)).bind fun g1 =>
      (ref.pixelAt (4 * i + count * 2)).bind fun b1 =>
      (ref.pixelAt (4 * i + count * 3)).bind fun a1 =>
      let r := r0 - r1
      let g := g0 - g1
      let b := b0 - b1
      some (if refAlpha = .transparency then
          s + r * r * a1 / 255 + g * g * a1 / 255 + b * b * a1 / 255
        else s + r * r + g * g + b * b)) (some 0)

/-- Per-face accumulation of `rootMeanSquaredError_alpha`: plain squared
difference of the alpha reads `pixel(4*i + count*3)` of both images. -/
def alphaFaceAcc (img ref : FloatImage) : Option ℚ :=
  let count := img.width * img.height
  (List.range count).foldl (fun acc i =>
    acc.bind fun s =>
      (img.pixelAt (4 * i + count * 3)).bind fun a0 =>
      (ref.pixelAt (4 * i + count * 3)).bind fun a1 =>
      some (s + (a0 - a1) * (a0 - a1))) (some 0)

/-- Face-pair accumulator state of the RMSE loops. -/
inductive MseAcc
  | fault
  | sentinel
  | acc (mse : ℚ) (total : Nat)

/-- The shared face loop of both RMSE metrics: the first pair with an absent
face yields the `FLT_MAX` sentinel; a faulting per-face accumulation yields
`fault`; otherwise the squared error and the sample count accumulate.  The
catch-all arm (sequences of different lengths) is unreachable because the
caller compares the face counts first. -/
def rmseLoop (faceAcc : FloatImage → FloatImage → Option ℚ) :
    List (Option FloatImage) → List (Option FloatImage) → ℚ → Nat → MseAcc
  | some img :: fs, some ref :: rs, mse, tot =>
      match faceAcc img ref with
      | none => .fault
      | some d => rmseLoop faceAcc fs rs (mse + d) (tot + img.width * img.height)
  | _ :: _, _ :: _, _, _ => .sentinel
  | _, _, mse, tot => .acc mse tot

/-- Method `TexImage::rootMeanSquaredError_rgb`. -/
def rootMeanSquaredError_rgb (s ref : Payload) : Option RmseOut :=
  if s.faces.length ≠ ref.faces.length then some .fltMax
  else
    match rmseLoop (rgbFaceAcc ref.alphaMode) s.faces ref.faces 0 0 with
    | .fault => none
    | .sentinel => some .fltMax
    | .acc mse tot => if tot = 0 then some .nanOut else some (.val (mse / tot))

/-- Method `TexImage::rootMeanSquaredError_alpha`. -/
def rootMeanSquaredError_alpha (s ref : Payload) : Option RmseOut :=
  if s.faces.length ≠ ref.faces.length then some .fltMax
  else
    match rmseLoop alphaFaceAcc s.faces ref.faces 0 0 with
    | .fault => none
    | .sentinel => some .fltMax
    | .acc mse tot => if tot = 0 then some .nanOut else some (.val (mse / tot))

/-! ### Claims C6, C8, C10: metric behaviour -/

/-- A well-formed 2×1 payload (one fully-populated face, 8 buffer elements). -/
def tex2x1 : Payload :=
  { type := .type2D, wrapMode := .mirror, alphaMode := .noAlpha,
    isNormalMap := false, faces := [some ⟨2, 1, [1, 2, 3, 4, 5, 6, 7, 8]⟩] }

/-- C6: evaluating `rootMeanSquaredError_rgb` on a fully-populated,
well-formed 2×1 texture pair faults: with `count = 2` the source's flat read
`pixel(4*i + count*c)` reaches index `4*1 + 2*3 = 10` in the 8-element
channel-major buffer — an out-of-bounds access — instead of reading channel
`c` of pixel `i` at index `count*c + i`. -/
theorem rmse_rgb_oob_fault : rootMeanSquaredError_rgb tex2x1 tex2x1 = none := by decide

/-- C10: with both textures freshly constructed (zero face slots) the
face-count check passes, zero samples accumulate, and the result is the NaN
of `sqrt(0.0 / 0)` — neither 0 nor the `FLT_MAX` sentinel. -/
theorem rmse_empty_nan :
    rootMeanSquaredError_rgb freshPayload freshPayload = some .nanOut ∧
    rootMeanSquaredError_alpha freshPayload freshPayload = some .nanOut := by
  constructor
  · decide
  · decide

/-- Unit face predicate used by the amended C8: a present 1×1 well-formed
face, the only shape whose per-pixel accumulation stays in bounds under the
source's `4*i + count*c` indexing. -/
def isUnitFace : Option FloatImage → Bool
  | some img => decide (img.width = 1) && decide (img.height = 1) && decide img.wf
  | none => false

theorem length_four_shape (l : List ℚ) (h : l.length = 4) :
    ∃ a b c d, l = [a, b, c, d] := by
  match l, h with
  | [a, b, c, d], _ => exact ⟨a, b, c, d, rfl⟩

theorem unitFace_shape (img : FloatImage) (hw : img.width = 1) (hh : img.height = 1)
    (hwf : img.wf) : ∃ a b c d, img = ⟨1, 1, [a, b, c, d]⟩ := by
  obtain ⟨a, b, c, d, hd⟩ :=
    length_four_shape img.data (by simpa [FloatImage.wf, hw, hh] using hwf)
  exact ⟨a, b, c, d, by cases img; simp_all⟩

theorem rgbFaceAcc_unit (refAlpha : AlphaMode) (a b c d : ℚ) (w' h' : Nat)
    (a' b' c' d' : ℚ) :
    ∃ q, rgbFaceAcc refAlpha ⟨1, 1, [a, b, c, d]⟩ ⟨w', h', [a', b', c', d']⟩ = some q :=
  ⟨_, rfl⟩

theorem alphaFaceAcc_unit (a b c d : ℚ) (w' h' : Nat) (a' b' c' d' : ℚ) :
    ∃ q, alphaFaceAcc ⟨1, 1, [a, b, c, d]⟩ ⟨w', h', [a', b', c', d']⟩ = some q :=
  ⟨_, rfl⟩

theorem rmseLoop_sentinel (faceAcc : FloatImage → FloatImage → Option ℚ)
    (hacc : ∀ (a b c d : ℚ) (w' h' : Nat) (a' b' c' d' : ℚ),
      ∃ q, faceAcc ⟨1, 1, [a, b, c, d]⟩ ⟨w', h', [a', b', c', d']⟩ = some q) :
    ∀ (k : Nat) (fs rs : List (Option FloatImage)) (mse : ℚ) (tot : Nat),
      fs.length = rs.length → k < fs.length →
      (fs.getD k none = none ∨ rs.getD k none = none) →
      (∀ j, j < k → isUnitFace (fs.getD j none) = true ∧
        isUnitFace (rs.getD j none) = true) →
      rmseLoop faceAcc fs rs mse tot = .sentinel := by
  intro k
  induction k with
  | zero =>
    intro fs rs mse tot hlen hk habs _
    match fs, rs with
    | [], _ => exact absurd hk (by simp)
    | f :: fs', [] => exact absurd hlen (by simp)
    | some i :: fs', some r :: rs' =>
      rcases habs with h | h <;> simp at h
    | none :: fs', r :: rs' => simp only [rmseLoop]
    | some i :: fs', none :: rs' => simp only [rmseLoop]
  | succ k ih =>
    intro fs rs mse tot hlen hk habs hunit
    match fs, rs with
    | [], _ => exact absurd hk (by simp)
    | f :: fs', [] => exact absurd hlen (by simp)
    | some di :: fs', some si :: rs' =>
      have h0 := hunit 0 (Nat.succ_pos k)
      simp only [List.getD_cons_zero, isUnitFace, Bool.and_eq_true,
        decide_eq_true_eq] at h0
      obtain ⟨⟨⟨hw, hh⟩, hwf⟩, ⟨⟨hw', hh'⟩, hwf'⟩⟩ := h0
      obtain ⟨a, b, c, d, hdi⟩ := unitFace_shape di hw hh hwf
      obtain ⟨a', b', c', d', hsi⟩ := unitFace_shape si hw' hh' hwf'
      obtain ⟨q, hq⟩ : ∃ q, faceAcc di si = some q := by
        rw [hdi, hsi]
        exact hacc a b c d 1 1 a' b' c' d'
      simp only [rmseLoop, hq]
      exact ih fs' rs' (mse + q) (tot + di.width * di.height)
        (by simpa using hlen) (by simpa using hk) (by simpa using habs)
        (fun j hj => by simpa using hunit (j + 1) (by omega))
    | none :: fs', r :: rs' => simp only [rmseLoop]
    | some i :: fs', none :: rs' => simp only [rmseLoop]

/-- C8 (counterexample): two structurally equal 6-face textures whose face 0
is a well-formed 2×1 image and whose remaining faces are absent.  The face
counts are equal and a compared pair is absent, yet neither metric returns
the `FLT_MAX` sentinel: accumulating over the 2×1 face 0 faults on an
out-of-bounds read first. -/
def nullAfterBigPayload : Payload :=
  { type := .typeCube, wrapMode := .mirror, alphaMode := .noAlpha,
    isNormalMap := false,
    faces := [some ⟨2, 1, [1, 2, 3, 4, 5, 6, 7, 8]⟩, none, none, none, none, none] }

/-- C8 (counterexample): the sentinel is not returned when an absent pair is
preceded by a larger-than-1×1 populated pair. -/
theorem rmse_missing_face_not_sentinel :
    ¬ rootMeanSquaredError_rgb nullAfterBigPayload nullAfterBigPayload =
        some RmseOut.fltMax ∧
    ¬ rootMeanSquaredError_alpha nullAfterBigPayload nullAfterBigPayload =
        some RmseOut.fltMax := by
  constructor
  · decide
  · decide

/-- C8 (amended): both metrics return the `FLT_MAX` sentinel whenever the two
face counts differ; when the counts are equal and pair `k` has an absent
face, the sentinel is returned provided the pairs before `k` are present,
1×1 and well-formed (the only shape whose accumulation under the source's
`4*i + count*c` indexing completes without an out-of-bounds fault). -/
theorem rmse_sentinel_spec (s r : Payload) (k : Nat) :
    (s.faces.length ≠ r.faces.length →
      rootMeanSquaredError_rgb s r = some RmseOut.fltMax ∧
      rootMeanSquaredError_alpha s r = some RmseOut.fltMax) ∧
    (s.faces.length = r.faces.length → k < s.faces.length →
      (s.faces.getD k none = none ∨ r.faces.getD k none = none) →
      (∀ j, j < k → isUnitFace (s.faces.getD j none) = true ∧
        isUnitFace (r.faces.getD j none) = true) →
      rootMeanSquaredError_rgb s r = some RmseOut.fltMax ∧
      rootMeanSquaredError_alpha s r = some RmseOut.fltMax) := by
  constructor
  · intro hne
    constructor
    · simp only [rootMeanSquaredError_rgb, if_pos hne]
    · simp only [rootMeanSquaredError_alpha, if_pos hne]
  · intro hlen hk habs hunit
    have hrgb := rmseLoop_sentinel (rgbFaceAcc r.alphaMode)
      (rgbFaceAcc_unit r.alphaMode) k s.faces r.faces 0 0 hlen hk habs hunit
    have halpha := rmseLoop_sentinel alphaFaceAcc
      alphaFaceAcc_unit k s.faces r.faces 0 0 hlen hk habs hunit
    constructor
    · simp only [rootMeanSquaredError_rgb,
        if_neg (by omega : ¬ s.faces.length ≠ r.faces.length), hrgb]
    · simp only [rootMeanSquaredError_alpha,
        if_neg (by omega : ¬ s.faces.length ≠ r.faces.length), halpha]

/-- A payload with a well-formed 1×1 face followed by an absent face. -/
def unitNullPayload : Payload :=
  { type := .type2D, wrapMode := .mirror, alphaMode := .noAlpha,
    isNormalMap := false, faces := [some zeroImage1x1, none] }

/-- C8 (witness): the sentinel specification applied at concrete inputs — a
face-count mismatch (0 vs 1 faces), and an absent pair at index 1 preceded by
a well-formed 1×1 pair. -/
theorem rmse_sentinel_spec_witness :
    rootMeanSquaredError_rgb freshPayload onePayload1x1 = some RmseOut.fltMax ∧
    rootMeanSquaredError_rgb unitNullPayload unitNullPayload = some RmseOut.fltMax ∧
    rootMeanSquaredError_alpha unitNullPayload unitNullPayload = some RmseOut.fltMax := by
  have h1 := (rmse_sentinel_spec freshPayload onePayload1x1 0).1 (by decide)
  have h2 := (rmse_sentinel_spec unitNullPayload unitNullPayload 1).2 (by decide)
    (by decide) (Or.inl (by decide))
    (fun j hj => by
      have hj0 : j = 0 := Nat.lt_one_iff.mp hj
      subst hj0
      exact ⟨by decide, by decide⟩)
  exact ⟨h1.1, h2.1, h2.2⟩

/-! ### Mipmap generation (`TexImage::buildNextMipmap`, claim C7) -/

/-- Kernel selection of `buildNextMipmap`, with the external filter kernels
passed as collaborators (the spec treats filter strategies as pluggable with a
fixed contract): `dsAlpha` is the alpha-weighted `downSample(filter, ·, 3)`
family used when the alpha mode is Transparency, `ds` the unweighted
`downSample(filter, ·)` family, and `fastDS` the dedicated 2× box
`fastDownSample` used for the Box filter without alpha weighting. -/
def downSampleDispatch (dsAlpha ds : MipmapFilter → FloatImage → FloatImage)
    (fastDS : FloatImage → FloatImage) (alphaMode : AlphaMode)
    (filter : MipmapFilter) (img : FloatImage) : FloatImage :=
  if alphaMode = .transparency then dsAlpha filter img
  else
    match filter with
    | .box => fastDS img
    | .triangle => ds .triangle img
    | .kaiser => ds .kaiser img

/-- Method `TexImage::buildNextMipmap`: when faces exist, reads face 0's dimensions
(an absent face 0 is a null dereference, modelled as `none`) and returns
`false` leaving the state unchanged if face 0 is already 1×1; otherwise
replaces every present face by its downsampled image and returns `true`.
With no faces at all the size check is skipped and the call reports `true`
over an empty loop. -/
def buildNextMipmap (dsAlpha ds : MipmapFilter → FloatImage → FloatImage)
    (fastDS : FloatImage → FloatImage) (filter : MipmapFilter) (s : Payload) :
    Option (Bool × Payload) :=
  match s.faces with
  | [] => some (true, s)
  | none :: _ => none
  | some img0 :: _ =>
      if img0.width = 1 ∧ img0.height = 1 then some (false, s)
      else
        some (true, { s with faces := s.faces.map (fun f =>
          f.map (downSampleDispatch dsAlpha ds fastDS s.alphaMode filter)) })

/-- Modelled from the spec: the size contract of the external downsampling
kernels — each produces the next-coarser level, halving every extent with
integer floor clamped to a minimum of 1. -/
def halvesSizes (f : FloatImage → FloatImage) : Prop :=
  ∀ img : FloatImage, (f img).width = mipExtent img.width ∧
    (f img).height = mipExtent img.height

/-- Payload after `n` successive `buildNextMipmap` calls (`none` propagates a
fault). -/
def buildNextMipmapIter (dsAlpha ds : MipmapFilter → FloatImage → FloatImage)
    (fastDS : FloatImage → FloatImage) (filter : MipmapFilter) :
    Nat → Payload → Option Payload
  | 0, s => some s
  | n + 1, s =>
      match buildNextMipmap dsAlpha ds fastDS filter s with
      | none => none
      | some (_, s') => buildNextMipmapIter dsAlpha ds fastDS filter n s'

theorem one_le_mipExtent (n : Nat) : 1 ≤ mipExtent n := le_max_left 1 (n / 2)

theorem one_le_countMipmaps (w h d : Nat) : 1 ≤ countMipmaps w h d := by
  rw [countMipmaps_eq]
  split_ifs <;> omega

theorem downSampleDispatch_halves (dsAlpha ds : MipmapFilter → FloatImage → FloatImage)
    (fastDS : FloatImage → FloatImage)
    (hA : ∀ f, halvesSizes (dsAlpha f)) (hU : ∀ f, halvesSizes (ds f))
    (hF : halvesSizes fastDS) (am : AlphaMode) (filter : MipmapFilter)
    (img : FloatImage) :
    (downSampleDispatch dsAlpha ds fastDS am filter img).width = mipExtent img.width ∧
    (downSampleDispatch dsAlpha ds fastDS am filter img).height = mipExtent img.height := by
  unfold downSampleDispatch
  split_ifs with hAm
  · exact hA filter img
  · match filter with
    | .box => exact hF img
    | .triangle => exact hU .triangle img
    | .kaiser => exact hU .kaiser img

theorem buildNextMipmap_run (dsAlpha ds : MipmapFilter → FloatImage → FloatImage)
    (fastDS : FloatImage → FloatImage) (filter : MipmapFilter)
    (hA : ∀ f, halvesSizes (dsAlpha f)) (hU : ∀ f, halvesSizes (ds f))
    (hF : halvesSizes fastDS) :
    ∀ (N w h : Nat), 1 ≤ w → 1 ≤ h → countMipmaps w h 1 = N →
    ∀ (s : Payload) (img0 : FloatImage) (rest : List (Option FloatImage)),
      s.faces = some img0 :: rest → img0.width = w → img0.height = h →
      (∀ k, k < N - 1 →
        ∃ s', buildNextMipmapIter dsAlpha ds fastDS filter k s = some s' ∧
          (buildNextMipmap dsAlpha ds fastDS filter s').map Prod.fst = some true) ∧
      (∃ s', buildNextMipmapIter dsAlpha ds fastDS filter (N - 1) s = some s' ∧
        (buildNextMipmap dsAlpha ds fastDS filter s').map Prod.fst = some false) := by
  intro N
  induction N using Nat.strong_induction_on with
  | _ N ih =>
    intro w h hw hh hN s img0 rest hfaces hiw hih
    by_cases hstop : w = 1 ∧ h = 1
    · have hN1 : N = 1 := by
        rw [← hN, countMipmaps_eq, if_pos ⟨hstop.1, hstop.2, rfl⟩]
      subst hN1
      constructor
      · intro k hk
        omega
      · refine ⟨s, rfl, ?_⟩
        simp only [buildNextMipmap, hfaces,
          if_pos (show img0.width = 1 ∧ img0.height = 1 by omega)]
        rfl
    · have hMeq : N = 1 + countMipmaps (mipExtent w) (mipExtent h) 1 := by
        rw [← hN, countMipmaps_eq, if_neg (by
          intro hc
          exact hstop ⟨hc.1, hc.2.1⟩)]
        rfl
      set M := countMipmaps (mipExtent w) (mipExtent h) 1 with hM
      have hM1 : 1 ≤ M := one_le_countMipmaps _ _ _
      have hnotunit : ¬ (img0.width = 1 ∧ img0.height = 1) := by
        intro hc
        exact hstop ⟨by omega, by omega⟩
      have hbnm : buildNextMipmap dsAlpha ds fastDS filter s =
          some (true, { s with faces := s.faces.map (fun f =>
            f.map (downSampleDispatch dsAlpha ds fastDS s.alphaMode filter)) }) := by
        simp only [buildNextMipmap, hfaces, if_neg hnotunit]
      set s₁ : Payload := { s with faces := s.faces.map (fun f =>
        f.map (downSampleDispatch dsAlpha ds fastDS s.alphaMode filter)) } with hs₁
      have hfaces₁ : s₁.faces =
          some (downSampleDispatch dsAlpha ds fastDS s.alphaMode filter img0) ::
            rest.map (fun f =>
              f.map (downSampleDispatch dsAlpha ds fastDS s.alphaMode filter)) := by
        simp only [hs₁, hfaces, List.map_cons]
        rfl
      have hdisp := downSampleDispatch_halves dsAlpha ds fastDS hA hU hF
        s.alphaMode filter img0
      have hrec := ih M (by omega) (mipExtent w) (mipExtent h)
        (one_le_mipExtent w) (one_le_mipExtent h) rfl s₁ _ _ hfaces₁
        (by rw [hdisp.1, hiw]) (by rw [hdisp.2, hih])
      constructor
      · intro k hk
        match k with
        | 0 =>
          refine ⟨s, rfl, ?_⟩
          rw [hbnm]
          rfl
        | j + 1 =>
          have hstep : buildNextMipmapIter dsAlpha ds fastDS filter (j + 1) s =
              buildNextMipmapIter dsAlpha ds fastDS filter j s₁ := by
            simp only [buildNextMipmapIter, hbnm]
          rw [hstep]
          exact hrec.1 j (by omega)
      · have hstep : buildNextMipmapIter dsAlpha ds fastDS filter (N - 1) s =
            buildNextMipmapIter dsAlpha ds fastDS filter (M - 1) s₁ := by
          have : N - 1 = (M - 1) + 1 := by omega
          rw [this]
          simp only [buildNextMipmapIter, hbnm]
        rw [hstep]
        exact hrec.2

/-- C7: once face 0 is already 1×1 `buildNextMipmap` fails and changes
nothing; starting from a populated face 0 of size `(w, h)` (with the
downsampling kernels meeting their halve-with-floor-minimum-1 size contract),
exactly `countMipmaps w h 1 - 1` successive calls succeed, and the call after
reaching 1×1 reports failure. -/
theorem buildNextMipmap_chain (dsAlpha ds : MipmapFilter → FloatImage → FloatImage)
    (fastDS : FloatImage → FloatImage) (filter : MipmapFilter)
    (hA : ∀ f, halvesSizes (dsAlpha f)) (hU : ∀ f, halvesSizes (ds f))
    (hF : halvesSizes fastDS)
    (s : Payload) (img0 : FloatImage) (rest : List (Option FloatImage))
    (hfaces : s.faces = some img0 :: rest)
    (hw : 1 ≤ img0.width) (hh : 1 ≤ img0.height) :
    (img0.width = 1 → img0.height = 1 →
      buildNextMipmap dsAlpha ds fastDS filter s = some (false, s)) ∧
    (∀ k, k < countMipmaps img0.width img0.height 1 - 1 →
      ∃ s', buildNextMipmapIter dsAlpha ds fastDS filter k s = some s' ∧
        (buildNextMipmap dsAlpha ds fastDS filter s').map Prod.fst = some true) ∧
    (∃ s', buildNextMipmapIter dsAlpha ds fastDS filter
        (countMipmaps img0.width img0.height 1 - 1) s = some s' ∧
      (buildNextMipmap dsAlpha ds fastDS filter s').map Prod.fst = some false) := by
  have hrun := buildNextMipmap_run dsAlpha ds fastDS filter hA hU hF
    (countMipmaps img0.width img0.height 1) img0.width img0.height hw hh rfl
    s img0 rest hfaces rfl rfl
  refine ⟨?_, hrun.1, hrun.2⟩
  intro h1 h2
  simp only [buildNextMipmap, hfaces, if_pos (And.intro h1 h2)]

/-- A trivial kernel satisfying the size contract, used to instantiate the
mip-chain theorem concretely. -/
def demoKernel : FloatImage → FloatImage :=
  fun img => ⟨mipExtent img.width, mipExtent img.height, []⟩

/-- A payload with one populated 4×2 face. -/
def mip4x2Payload : Payload :=
  { type := .type2D, wrapMode := .mirror, alphaMode := .noAlpha,
    isNormalMap := false, faces := [some ⟨4, 2, List.replicate 32 0⟩] }

/-- C7 (witness): the mip-chain theorem instantiated on a 4×2 face with a
concrete contract-satisfying kernel: `countMipmaps 4 2 1 = 3`, so exactly two
calls succeed before the third reports failure. -/
theorem buildNextMipmap_chain_witness :
    (∀ k, k < countMipmaps 4 2 1 - 1 →
      ∃ s', buildNextMipmapIter (fun _ => demoKernel) (fun _ => demoKernel) demoKernel
          .box k mip4x2Payload = some s' ∧
        (buildNextMipmap (fun _ => demoKernel) (fun _ => demoKernel) demoKernel
          .box s').map Prod.fst = some true) ∧
    (∃ s', buildNextMipmapIter (fun _ => demoKernel) (fun _ => demoKernel) demoKernel
        .box (countMipmaps 4 2 1 - 1) mip4x2Payload = some s' ∧
      (buildNextMipmap (fun _ => demoKernel) (fun _ => demoKernel) demoKernel
        .box s').map Prod.fst = some false) :=
  (buildNextMipmap_chain (fun _ => demoKernel) (fun _ => demoKernel) demoKernel .box
    (fun _ img => ⟨rfl, rfl⟩) (fun _ img => ⟨rfl, rfl⟩) (fun img => ⟨rfl, rfl⟩)
    mip4x2Payload ⟨4, 2, List.replicate 32 0⟩ [] rfl (by decide) (by decide)).2

/-! ### Heap model of payload sharing (claim C1)

`detach` and the pointer discipline of `setImage2D` only matter when a payload
is shared between handles, so this section models handles, payloads and face
images explicitly: `Heap.images` stores the `FloatImage` objects,
`Heap.payloads` stores the `Private` payloads (faces hold image ids, and the
manual reference count is stored alongside), and a handle is the index of its
payload. -/

/-- A `TexImage::Private` payload in the heap model: scalar metadata, face
slots referencing image objects by id, and the manual reference count. -/
structure HPayload where
  type : TextureType
  wrapMode : WrapMode
  alphaMode : AlphaMode
  isNormalMap : Bool
  faces : List (Option Nat)
  refCount : Nat
deriving DecidableEq

/-- The object heap: payload store and image store. -/
structure Heap where
  payloads : List HPayload
  images : List FloatImage
deriving DecidableEq

/-- The deep copy performed by `Private`'s copy constructor: every owned face
image is cloned into a fresh image object (appended to the image store) and
the cloned face list references the clones.  A dangling image id (unreachable
in a well-formed heap) clones an empty image. -/
def cloneFacesGo : List FloatImage → List (Option Nat) → List (Option Nat) × List FloatImage
  | imgs, [] => ([], imgs)
  | imgs, none :: fs =>
      let r := cloneFacesGo imgs fs
      (none :: r.1, r.2)
  | imgs, some i :: fs =>
      let newId := imgs.length
      let imgs' := imgs ++ [imgs.getD i ⟨0, 0, []⟩]
      let r := cloneFacesGo imgs' fs
      (some newId :: r.1, r.2)

/-- Method `TexImage::detach`: if the handle's payload is shared (`refCount() > 1`),
release it (decrement the count), deep-copy it — cloning all face images —
and point the handle at the fresh payload with `refCount = 1`; otherwise a
no-op.  Returns the possibly-new handle together with the updated heap. -/
def heapDetach (hd : Nat) (H : Heap) : Nat × Heap :=
  match H.payloads[hd]? with
  | none => (hd, H)
  | some p =>
    if 1 < p.refCount then
      let r := cloneFacesGo H.images p.faces
      (H.payloads.length,
        { payloads := (H.payloads.set hd { p with refCount := p.refCount - 1 }) ++
            [{ p with faces := r.1, refCount := 1 }],
          images := r.2 })
    else (hd, H)

/-- The interleaved `setImage2D` overload at the handle level, following the
source line by line: face-index check, face fetch — the `FloatImage *`
pointer (here the image id) is captured at this point, before `detach` —
dimension check, `detach`, and then the channel writes go through the
captured id, i.e. into the image object owned by the payload that was current
before the detach.  An invalid handle or a `none` face is a fault (`none`). -/
def heapSetImage2D (format : InputFormat) (w h : Nat) (idx : ℤ)
    (bytes : List Nat) (floats : List ℚ) (hd : Nat) (H : Heap) :
    Option (Bool × Nat × Heap) :=
  match H.payloads[hd]? with
  | none => none
  | some p =>
    if idx < 0 ∨ p.faces.length ≤ idx.toNat then some (false, hd, H)
    else
      match p.faces.getD idx.toNat none with
      | none => none
      | some imgId =>
        match H.images[imgId]? with
        | none => none
        | some img =>
          if img.width ≠ w ∨ img.height ≠ h then some (false, hd, H)
          else
            let r := heapDetach hd H
            let newData :=
              match format with
              | .bgra8ub => bgraChannelData bytes (w * h)
              | .rgba32f => rgbaFloatChannelData floats (w * h)
            some (true, r.1,
              { r.2 with images := r.2.images.set imgId { img with data := newData } })

/-- Pixel data of face `f` as observed through handle `hd`. -/
def heapObserve (hd : Nat) (H : Heap) (f : Nat) : Option FloatImage :=
  (H.payloads[hd]?).bind fun p =>
    (p.faces.getD f none).bind fun imgId => H.images[imgId]?

/-- The shared payload of `sharedHeap`: a 2D texture payload with a single
populated face (image id 0) and reference count 2. -/
def sharedHeapPayload : HPayload :=
  { type := .type2D, wrapMode := .mirror, alphaMode := .noAlpha,
    isNormalMap := false, faces := [some 0], refCount := 2 }

/-- A heap in which one payload (a 2D texture with a single populated 1×1
zero face) is shared by two handles, both of index 0 — the situation after
`TexImage B = A`. -/
def sharedHeap : Heap :=
  { payloads := [sharedHeapPayload], images := [⟨1, 1, [0, 0, 0, 0]⟩] }

/-- C1: with handles A and B sharing one payload (both handle index 0 of
`sharedHeap`), `setImage2D(BGRA_8UB, 1, 1, 0, (b,g,r,a) = (10,20,30,40))`
invoked through B reports success, yet afterwards A — which still holds the
old, supposedly untouched shared payload — observes the written pixel data
`(r,g,b,a) = (30,20,10,40)` instead of its original zeros, while B's freshly
cloned payload still observes the stale zeros: the face pointer is captured
before `detach` and the write lands in the old shared image. -/
theorem setImage2D_breaks_copy_on_write :
    ((heapSetImage2D .bgra8ub 1 1 0 [10, 20, 30, 40] [] 0 sharedHeap).map
        (fun r => r.1) = some true) ∧
    heapObserve 0 sharedHeap 0 = some ⟨1, 1, [0, 0, 0, 0]⟩ ∧
    ((heapSetImage2D .bgra8ub 1 1 0 [10, 20, 30, 40] [] 0 sharedHeap).map
        (fun r => heapObserve 0 r.2.2 0) = some (some ⟨1, 1, [30, 20, 10, 40]⟩)) ∧
    ((heapSetImage2D .bgra8ub 1 1 0 [10, 20, 30, 40] [] 0 sharedHeap).map
        (fun r => heapObserve r.2.1 r.2.2 0) = some (some ⟨1, 1, [0, 0, 0, 0]⟩)) := by
  refine ⟨?_, ?_, ?_, ?_⟩
  · decide
  · decide
  · decide
  · decide

/-- C4: the source's tie rule.  The claim asserts `nearestPowerOfTwo 6 = 4`
(ties resolving to the previous power of two); the code's comparison
`np2 - v <= v - pp2` resolves the tie `|8-6| = |6-4|` to the next power of two,
so the result is 8, not 4. -/
theorem nearestPowerOfTwo_six_ne_four : ¬ nearestPowerOfTwo 6 = 4 := by decide

/-- C4 (amended): `nearestPowerOfTwo(6) = 8`; on an exact tie between the next
and the previous power of two the code's test `np2 - v <= v - pp2` picks the
next (larger) power of two. -/
theorem nearestPowerOfTwo_six : nearestPowerOfTwo 6 = 8 := by decide

end Nvtt
